import Mathlib

/-
  Verification of the matchmaking and relay core of `src/server.js`
  (USA-TANKd).  The server keeps three process-wide maps:
    clients       : ws -> {id, tier, tankName, roomId}
    waitingByTier : tier -> ws
    rooms         : roomId -> {hostWs, clientWs, tier}
  and reacts to three kinds of events: a new connection, an inbound
  decoded JSON message, and a disconnect (close/error).

  JavaScript values carried by messages are modelled by `JSVal`.
  Numbers are modelled as integers plus a NaN marker: the protocol only
  ever produces integer tiers or NaN (fractional numeric literals are
  outside the modelled value space, as are arrays).  JS `Map` objects
  are modelled as association lists with JS Map semantics (`mGet`,
  `mSet`, `mDel`); key comparison uses decidable equality, which agrees
  with the SameValueZero comparison of JS Maps on the modelled values
  (in particular NaN equals NaN as a key).  Socket handles are opaque
  and modelled as naturals; `openSocks` lists the handles whose channel
  is open, and `send` (modelled by `sendTo`) silently skips a channel
  that is not open, as in line 26 of the source.
-/

namespace TankServer

/-- JS numbers as they arise in this protocol: an integer or NaN. -/
inductive JSNum where
  | nan : JSNum
  | int (i : Int) : JSNum
deriving DecidableEq, Repr

/-- JSON-decodable JavaScript values (arrays omitted: the modelled
protocol fields never require them). -/
inductive JSVal where
  | undefinedV : JSVal
  | null : JSVal
  | bool (b : Bool) : JSVal
  | num (n : JSNum) : JSVal
  | str (s : String) : JSVal
  | obj (fields : List (String × JSVal)) : JSVal

/-- JS truthiness: undefined, null, false, 0, NaN and "" are falsy. -/
def truthy : JSVal → Bool
  | .undefinedV => false
  | .null => false
  | .bool b => b
  | .num .nan => false
  | .num (.int i) => i != 0
  | .str s => !s.isEmpty
  | .obj _ => true

/-- JS `a || b`. -/
def jsOr (a b : JSVal) : JSVal := if truthy a then a else b

/-- Whether a value is an object (the wire schema's payload type). -/
def isObj : JSVal → Bool
  | .obj _ => true
  | _ => false

/-- Property access `v.k`: undefined on non-objects and missing keys. -/
def getField : JSVal → String → JSVal
  | .obj fs, k => match fs.lookup k with
    | some v => v
    | none => .undefinedV
  | _, _ => .undefinedV

/-- JS strict equality of a value against a string literal. -/
def jsEqStr (v : JSVal) : String → Bool
  | s => match v with
    | .str s' => s' == s
    | _ => false

def isSpaceChar (c : Char) : Bool := c == ' ' || c == '\t' || c == '\n' || c == '\r'

def trimChars (l : List Char) : List Char :=
  ((l.dropWhile isSpaceChar).reverse.dropWhile isSpaceChar).reverse

def charDigit (c : Char) : Option Nat :=
  if 48 ≤ c.toNat ∧ c.toNat ≤ 57 then some (c.toNat - 48) else none

def digitsVal : List Char → Option Nat
  | [] => none
  | [c] => charDigit c
  | c :: rest => match charDigit c, digitsVal rest with
    | some d, some r => some (d * 10 ^ rest.length + r)
    | _, _ => none

/-- Integer literal parse (optional sign, then digits). -/
def parseIntChars : List Char → Option Int
  | '-' :: rest => (digitsVal rest).map (fun n => -(n : Int))
  | '+' :: rest => (digitsVal rest).map (fun n => (n : Int))
  | l => (digitsVal l).map (fun n => (n : Int))

/-- JS `Number(s)` for a string: empty/whitespace gives 0, an integer
literal parses, anything else is NaN (non-integer numeric literals are
outside the modelled number domain). -/
def strToNumber (s : String) : JSNum :=
  match parseIntChars (trimChars s.data) with
  | some i => .int i
  | none => if (trimChars s.data).isEmpty then .int 0 else .nan

/-- JS `Number(v)` on the modelled values (a plain object converts via
"[object Object]" to NaN). -/
def jsToNumber : JSVal → JSNum
  | .undefinedV => .nan
  | .null => .int 0
  | .bool b => .int (if b then 1 else 0)
  | .num n => n
  | .str s => strToNumber s
  | .obj _ => .nan

/-- JS `String(v)` on the modelled values. -/
def jsToString : JSVal → String
  | .undefinedV => "undefined"
  | .null => "null"
  | .bool b => if b then "true" else "false"
  | .num .nan => "NaN"
  | .num (.int i) => toString i
  | .str s => s
  | .obj _ => "[object Object]"

/-! ### JS `Map` objects, modelled as association lists

JS Maps never hold a duplicate key; `mSet` updates in place (keeping
insertion order) or appends, `mDel` removes the key, `mGet` looks it
up.  Key comparison is decidable equality, matching SameValueZero on
the modelled key types (NaN equals NaN as a Map key). -/

def mGet {α β : Type} [DecidableEq α] : List (α × β) → α → Option β
  | [], _ => none
  | (k', v') :: rest, k => if k = k' then some v' else mGet rest k

def mSet {α β : Type} [DecidableEq α] : List (α × β) → α → β → List (α × β)
  | [], k, v => [(k, v)]
  | (k', v') :: rest, k, v =>
    if k = k' then (k, v) :: rest else (k', v') :: mSet rest k v

def mDel {α β : Type} [DecidableEq α] : List (α × β) → α → List (α × β)
  | [], _ => []
  | (k', v') :: rest, k =>
    if k = k' then mDel rest k else (k', v') :: mDel rest k

/-! ### Server state (lines 21-23 of `server.js`) -/

/-- Per-connection record: `{id, tier, tankName, roomId}` (line 100).
All three mutable fields start as `null` (`none`); ids and room ids are
opaque unique tokens, modelled as naturals drawn from a counter. -/
structure Conn where
  id : Nat
  tier : Option JSNum
  tankName : Option String
  roomId : Option Nat
deriving DecidableEq, Repr

/-- Room record `{hostWs, clientWs, tier}` (line 127). -/
structure Room where
  hostWs : Nat
  clientWs : Nat
  tier : JSNum
deriving DecidableEq, Repr

/-- The whole in-memory server state: the three maps of lines 21-23,
the set of sockets whose channel is open, and the fresh-token counter
standing in for `uid()`. -/
structure ServerState where
  nextId : Nat
  clients : List (Nat × Conn)
  waitingByTier : List (JSNum × Nat)
  rooms : List (Nat × Room)
  openSocks : List Nat
deriving DecidableEq, Repr

/-- Messages the server sends (lines 41, 101, 129-133, 136, 146, 156).
`stateMsg ty p` is the relayed `{type: msg.type, payload}` object of
line 156, whose type field is the incoming subtype string. -/
inductive OutMsg where
  | welcome (id : Nat)
  | info (text : String)
  | matched (roomId hostId peerId : Nat)
  | hostStart
  | inputMsg (payload : JSVal)
  | stateMsg (ty : String) (payload : JSVal)

/-- Source `send(ws, obj)` (line 25): emitted only if the channel is open. -/
def sendTo (s : ServerState) (ws : Nat) (msg : OutMsg) : List (Nat × OutMsg) :=
  if ws ∈ s.openSocks then [(ws, msg)] else []

/-- A run of consecutive `send` calls with no state change in between. -/
def sendsTo (s : ServerState) : List (Nat × OutMsg) → List (Nat × OutMsg)
  | [] => []
  | (ws, msg) :: rest => sendTo s ws msg ++ sendsTo s rest

/-! ### The join branch (lines 109-139) -/

/-- Source `Number(msg.tier || 1)` (line 110). -/
def joinTier (m : JSVal) : JSNum :=
  jsToNumber (jsOr (getField m "tier") (.num (.int 1)))

/-- Source `String(msg.tankName || "Tank")` (line 111). -/
def joinName (m : JSVal) : String :=
  jsToString (jsOr (getField m "tankName") (.str "Tank"))

/-- Lines 135-136: store the requester as the waiter for its tier. -/
def enqueueWaiter (s : ServerState) (ws : Nat) (t : JSNum) :
    ServerState × List (Nat × OutMsg) :=
  ({ s with waitingByTier := mSet s.waitingByTier t ws },
   sendTo s ws (.info "Searching for opponent (same tier)..."))

/-- Lines 115-133: pair the waiter `w` (host) with the joiner `ws`
(client): empty the tier slot, mint a room id, set both room
references, record the room, and emit the four notices in source
order.  `host` and `c1` are the two registry records as they stand
after line 111. -/
def createRoom (s : ServerState) (w ws : Nat) (host c1 : Conn) (t : JSNum) :
    ServerState × List (Nat × OutMsg) :=
  let roomId := s.nextId
  let s2 : ServerState :=
    { s with
      nextId := s.nextId + 1,
      waitingByTier := mDel s.waitingByTier t,
      clients := mSet (mSet s.clients w { host with roomId := some roomId })
                   ws { c1 with roomId := some roomId },
      rooms := mSet s.rooms roomId ⟨w, ws, t⟩ }
  (s2, sendsTo s2
    [(w, .matched roomId host.id c1.id),
     (ws, .matched roomId host.id host.id),
     (w, .hostStart),
     (ws, .info "Waiting for host to start…")])

/-- Lines 109-139, with `c` the requester's registry record.  The guard
of line 114 (`waiting && waiting !== ws && clients.has(waiting)`) picks
pairing; otherwise the requester becomes the sole waiter. -/
def handleJoin (s : ServerState) (ws : Nat) (c : Conn) (m : JSVal) :
    ServerState × List (Nat × OutMsg) :=
  let t := joinTier m
  let c1 : Conn := { c with tier := some t, tankName := some (joinName m) }
  let s1 : ServerState := { s with clients := mSet s.clients ws c1 }
  match mGet s1.waitingByTier t with
  | some w =>
    if w = ws then enqueueWaiter s1 ws t
    else
      match mGet s1.clients w with
      | some host => createRoom s1 w ws host c1 t
      | none => enqueueWaiter s1 ws t
  | none => enqueueWaiter s1 ws t

/-! ### The relay branches (lines 141-159) -/

/-- Source `msg.payload || {}` (lines 146, 156). -/
def relayPayload (m : JSVal) : JSVal := jsOr (getField m "payload") (.obj [])

/-- Lines 141-149: an input is forwarded to the host unless the sender
is the host. -/
def handleInput (s : ServerState) (ws : Nat) (c : Conn) (m : JSVal) :
    ServerState × List (Nat × OutMsg) :=
  match c.roomId with
  | none => (s, [])
  | some rid =>
    match mGet s.rooms rid with
    | none => (s, [])
    | some room =>
      if room.hostWs ≠ ws then
        (s, sendTo s room.hostWs (.inputMsg (relayPayload m)))
      else (s, [])

/-- Lines 151-159: init/snapshot is forwarded to the client only when
the sender is the host, keeping the incoming subtype `ty`. -/
def handleState (s : ServerState) (ws : Nat) (c : Conn) (ty : String) (m : JSVal) :
    ServerState × List (Nat × OutMsg) :=
  match c.roomId with
  | none => (s, [])
  | some rid =>
    match mGet s.rooms rid with
    | none => (s, [])
    | some room =>
      if room.hostWs = ws then
        (s, sendTo s room.clientWs (.stateMsg ty (relayPayload m)))
      else (s, [])

/-- The message handler of lines 103-160 after JSON decoding (a decode
failure produces no event at all).  An unregistered sender and an
unrecognized type are ignored. -/
def handleMessage (s : ServerState) (ws : Nat) (m : JSVal) :
    ServerState × List (Nat × OutMsg) :=
  match mGet s.clients ws with
  | none => (s, [])
  | some c =>
    if jsEqStr (getField m "type") "join" then handleJoin s ws c m
    else if jsEqStr (getField m "type") "input" then handleInput s ws c m
    else if jsEqStr (getField m "type") "init" then handleState s ws c "init" m
    else if jsEqStr (getField m "type") "snapshot" then handleState s ws c "snapshot" m
    else (s, [])

/-! ### Cleanup (lines 29-47) -/

/-- Lines 33-36: drop the waiting entry for the connection's tier when
it is this connection. -/
def cleanupWait (s : ServerState) (ws : Nat) (c : Conn) : ServerState :=
  match c.tier with
  | some t =>
    if mGet s.waitingByTier t = some ws then
      { s with waitingByTier := mDel s.waitingByTier t }
    else s
  | none => s

/-- Lines 38-44: if the connection's room still exists, notify the
other member, close its channel, and delete the room. -/
def cleanupRoom (s : ServerState) (ws : Nat) (c : Conn) :
    ServerState × List (Nat × OutMsg) :=
  match c.roomId with
  | none => (s, [])
  | some rid =>
    match mGet s.rooms rid with
    | none => (s, [])
    | some room =>
      let other := if room.hostWs = ws then room.clientWs else room.hostWs
      ({ s with
          rooms := mDel s.rooms rid,
          openSocks := s.openSocks.filter (fun x => x != other) },
       sendTo s other (.info "Opponent disconnected."))

/-- Source `cleanup(ws)` (lines 29-47): a no-op for an unregistered handle;
otherwise dequeue, tear the room down, and unregister. -/
def cleanup (s : ServerState) (ws : Nat) : ServerState × List (Nat × OutMsg) :=
  match mGet s.clients ws with
  | none => (s, [])
  | some c =>
    let s1 := cleanupWait s ws c
    let p := cleanupRoom s1 ws c
    ({ p.1 with clients := mDel p.1.clients ws }, p.2)

/-! ### Events and reachability -/

/-- The three events the external layer feeds the core. -/
inductive Event where
  | connect (ws : Nat)
  | msg (ws : Nat) (m : JSVal)
  | disconnect (ws : Nat)

/-- One event processed to completion (single-threaded dispatch).
`connect` is lines 98-101; `disconnect` covers both close and error
(lines 162-163), the transport having closed the socket first. -/
def step (s : ServerState) (e : Event) : ServerState × List (Nat × OutMsg) :=
  match e with
  | .connect ws =>
    let s1 : ServerState :=
      { s with
        nextId := s.nextId + 1,
        clients := mSet s.clients ws ⟨s.nextId, none, none, none⟩,
        openSocks := ws :: s.openSocks }
    (s1, sendTo s1 ws (.welcome s.nextId))
  | .msg ws m => handleMessage s ws m
  | .disconnect ws =>
    cleanup { s with openSocks := s.openSocks.filter (fun x => x != ws) } ws

/-- Run a sequence of events, discarding outputs. -/
def execState : ServerState → List Event → ServerState
  | s, [] => s
  | s, e :: es => execState (step s e).1 es

/-- The empty initial state. -/
def initState : ServerState := ⟨0, [], [], [], []⟩

/-- A state the server can actually be in. -/
def Reachable (s : ServerState) : Prop := ∃ es, execState initState es = s

/-- Number of entries a key has in an association list. -/
def keyCount {α β : Type} [DecidableEq α] : List (α × β) → α → Nat
  | [], _ => 0
  | (k', _) :: rest, k => (if k = k' then 1 else 0) + keyCount rest k

/-- The tier-queue invariant: at most one waiting entry per tier. -/
def TierInv (s : ServerState) : Prop := ∀ t, keyCount s.waitingByTier t ≤ 1

/-! ### Concrete protocol messages and traces used as witnesses -/

/-- Message `{type:"join", tier:1}`. -/
def joinMsg1 : JSVal := .obj [("type", .str "join"), ("tier", .num (.int 1))]

/-- Message `{type:"join", tier:2}`. -/
def joinMsg2 : JSVal := .obj [("type", .str "join"), ("tier", .num (.int 2))]

/-- Message `{type:"join", tier:"abc"}`: a truthy tier that is not a number. -/
def joinMsgBad : JSVal := .obj [("type", .str "join"), ("tier", .str "abc")]

/-- Message `{type:"join"}`: tier and tankName absent. -/
def joinMsgBare : JSVal := .obj [("type", .str "join")]

/-- Message `{type:"input", payload:{fire:true}}`. -/
def inputMsgEx : JSVal := .obj [("type", .str "input"), ("payload", .obj [("fire", .bool true)])]

/-- Message `{type:"input", payload:null}`: a falsy payload. -/
def inputMsgNull : JSVal := .obj [("type", .str "input"), ("payload", .null)]

/-- Message `{type:"init", payload:{x:1}}`. -/
def initMsgEx : JSVal := .obj [("type", .str "init"), ("payload", .obj [("x", .num (.int 1))])]

/-- Message `{type:"snapshot", payload:0}`: a falsy payload. -/
def snapMsgZero : JSVal := .obj [("type", .str "snapshot"), ("payload", .num (.int 0))]

/-- Connect two sockets and pair them on tier 1. -/
def pairEvents : List Event := [.connect 0, .connect 1, .msg 0 joinMsg1, .msg 1 joinMsg1]

/-- The state in which sockets 0 (host) and 1 (client) share room 2. -/
def pairedState : ServerState := execState initState pairEvents

/-! ### Association-list map lemmas -/

theorem mGet_mSet_self {α β : Type} [DecidableEq α] (m : List (α × β)) (k : α) (v : β) :
    mGet (mSet m k v) k = some v := by
  induction m with
  | nil => simp [mSet, mGet]
  | cons hd tl ih =>
    obtain ⟨k', v'⟩ := hd
    by_cases h : k = k' <;> simp [mSet, mGet, h, ih]

theorem mGet_mSet_ne {α β : Type} [DecidableEq α] (m : List (α × β)) (k k' : α) (v : β)
    (h : k' ≠ k) : mGet (mSet m k v) k' = mGet m k' := by
  induction m with
  | nil => simp [mSet, mGet, h]
  | cons hd tl ih =>
    obtain ⟨k1, v1⟩ := hd
    by_cases h1 : k = k1
    · subst h1; simp [mSet, mGet, h]
    · by_cases h2 : k' = k1 <;> simp [mSet, mGet, h1, h2, ih]

theorem mGet_mDel_self {α β : Type} [DecidableEq α] (m : List (α × β)) (k : α) :
    mGet (mDel m k) k = none := by
  induction m with
  | nil => simp [mDel, mGet]
  | cons hd tl ih =>
    obtain ⟨k1, v1⟩ := hd
    by_cases h : k = k1
    · subst h; simpa [mDel] using ih
    · simp [mDel, mGet, h, ih]

theorem mGet_mDel_ne {α β : Type} [DecidableEq α] (m : List (α × β)) (k k' : α)
    (h : k' ≠ k) : mGet (mDel m k) k' = mGet m k' := by
  induction m with
  | nil => simp [mDel, mGet]
  | cons hd tl ih =>
    obtain ⟨k1, v1⟩ := hd
    by_cases h1 : k = k1
    · subst h1; simp [mDel, mGet, h, ih]
    · by_cases h2 : k' = k1 <;> simp [mDel, mGet, h1, h2, ih]

theorem keyCount_mSet_self {α β : Type} [DecidableEq α] (m : List (α × β)) (k : α) (v : β) :
    keyCount (mSet m k v) k = max (keyCount m k) 1 := by
  induction m with
  | nil => simp [mSet, keyCount]
  | cons hd tl ih =>
    obtain ⟨k1, v1⟩ := hd
    by_cases h : k = k1
    · subst h
      simp [mSet, keyCount]
    · simp only [mSet, if_neg h, keyCount]
      rw [ih]
      omega

theorem keyCount_mSet_ne {α β : Type} [DecidableEq α] (m : List (α × β)) (k k' : α) (v : β)
    (h : k' ≠ k) : keyCount (mSet m k v) k' = keyCount m k' := by
  induction m with
  | nil => simp [mSet, keyCount, h]
  | cons hd tl ih =>
    obtain ⟨k1, v1⟩ := hd
    by_cases h1 : k = k1
    · subst h1; simp [mSet, keyCount, h]
    · simp [mSet, keyCount, h1, ih]

theorem keyCount_mDel_self {α β : Type} [DecidableEq α] (m : List (α × β)) (k : α) :
    keyCount (mDel m k) k = 0 := by
  induction m with
  | nil => simp [mDel, keyCount]
  | cons hd tl ih =>
    obtain ⟨k1, v1⟩ := hd
    by_cases h : k = k1
    · subst h; simpa [mDel] using ih
    · simp [mDel, keyCount, h, ih]

theorem keyCount_mDel_ne {α β : Type} [DecidableEq α] (m : List (α × β)) (k k' : α)
    (h : k' ≠ k) : keyCount (mDel m k) k' = keyCount m k' := by
  induction m with
  | nil => simp [mDel, keyCount]
  | cons hd tl ih =>
    obtain ⟨k1, v1⟩ := hd
    by_cases h1 : k = k1
    · subst h1; simp [mDel, keyCount, h, ih]
    · simp [mDel, keyCount, h1, ih]

/-! ### Handler shape lemmas -/

/-- The input branch never mutates state. -/
theorem handleInput_fst (s : ServerState) (ws : Nat) (c : Conn) (m : JSVal) :
    (handleInput s ws c m).1 = s := by
  unfold handleInput
  split
  · rfl
  · split
    · rfl
    · split <;> rfl

/-- The init/snapshot branch never mutates state. -/
theorem handleState_fst (s : ServerState) (ws : Nat) (c : Conn) (ty : String) (m : JSVal) :
    (handleState s ws c ty m).1 = s := by
  unfold handleState
  split
  · rfl
  · split
    · rfl
    · split <;> rfl

/-- Dequeueing on cleanup only touches the tier queue. -/
theorem cleanupWait_eq (s : ServerState) (ws : Nat) (c : Conn) :
    ∃ w', cleanupWait s ws c = { s with waitingByTier := w' } := by
  unfold cleanupWait
  split
  · split
    · exact ⟨_, rfl⟩
    · exact ⟨s.waitingByTier, rfl⟩
  · exact ⟨s.waitingByTier, rfl⟩

/-- The tier queue after a cleanup dequeue: unchanged or one key dropped. -/
theorem cleanupWait_waiting (s : ServerState) (ws : Nat) (c : Conn) :
    (cleanupWait s ws c).waitingByTier = s.waitingByTier ∨
      ∃ t, (cleanupWait s ws c).waitingByTier = mDel s.waitingByTier t := by
  unfold cleanupWait
  split
  · split
    · exact Or.inr ⟨_, rfl⟩
    · exact Or.inl rfl
  · exact Or.inl rfl

/-- Room teardown never touches the tier queue. -/
theorem cleanupRoom_waiting (s : ServerState) (ws : Nat) (c : Conn) :
    (cleanupRoom s ws c).1.waitingByTier = s.waitingByTier := by
  unfold cleanupRoom
  split
  · rfl
  · split <;> rfl

/-- The tier queue after a join: the requester's tier slot is set
(waiting branch) or deleted (pairing branch); no other key moves. -/
theorem handleJoin_waiting (s : ServerState) (ws : Nat) (c : Conn) (m : JSVal) :
    (handleJoin s ws c m).1.waitingByTier = mSet s.waitingByTier (joinTier m) ws ∨
      (handleJoin s ws c m).1.waitingByTier = mDel s.waitingByTier (joinTier m) := by
  rcases hw : mGet s.waitingByTier (joinTier m) with _ | w
  · left; simp [handleJoin, hw, enqueueWaiter]
  · by_cases hww : w = ws
    · left; simp [handleJoin, hw, hww, enqueueWaiter]
    · rcases hc : mGet (mSet s.clients ws
          { c with tier := some (joinTier m), tankName := some (joinName m) }) w with _ | host
      · left; simp [handleJoin, hw, hww, hc, enqueueWaiter]
      · right; simp [handleJoin, hw, hww, hc, createRoom]

/-- The tier queue after any inbound message: unchanged, one slot set,
or one slot deleted. -/
theorem handleMessage_waiting (s : ServerState) (ws : Nat) (m : JSVal) :
    (handleMessage s ws m).1.waitingByTier = s.waitingByTier ∨
      (∃ t w, (handleMessage s ws m).1.waitingByTier = mSet s.waitingByTier t w) ∨
      (∃ t, (handleMessage s ws m).1.waitingByTier = mDel s.waitingByTier t) := by
  rcases hc : mGet s.clients ws with _ | c
  · left; simp [handleMessage, hc]
  · simp only [handleMessage, hc]
    split
    · rcases handleJoin_waiting s ws c m with h | h
      · exact Or.inr (Or.inl ⟨_, _, h⟩)
      · exact Or.inr (Or.inr ⟨_, h⟩)
    · split
      · rw [handleInput_fst]; exact Or.inl rfl
      · split
        · rw [handleState_fst]; exact Or.inl rfl
        · split
          · rw [handleState_fst]; exact Or.inl rfl
          · exact Or.inl rfl

/-- The tier queue after a cleanup: unchanged or one slot deleted. -/
theorem cleanup_waiting (s : ServerState) (ws : Nat) :
    (cleanup s ws).1.waitingByTier = s.waitingByTier ∨
      ∃ t, (cleanup s ws).1.waitingByTier = mDel s.waitingByTier t := by
  rcases hc : mGet s.clients ws with _ | c
  · left; simp [cleanup, hc]
  · have h : (cleanup s ws).1.waitingByTier = (cleanupWait s ws c).waitingByTier := by
      simp [cleanup, hc, cleanupRoom_waiting]
    rw [h]
    exact cleanupWait_waiting s ws c

/-- The tier queue across any event: unchanged, one slot set, or one
slot deleted. -/
theorem step_waiting (s : ServerState) (e : Event) :
    (step s e).1.waitingByTier = s.waitingByTier ∨
      (∃ t w, (step s e).1.waitingByTier = mSet s.waitingByTier t w) ∨
      (∃ t, (step s e).1.waitingByTier = mDel s.waitingByTier t) := by
  cases e with
  | connect ws => exact Or.inl rfl
  | msg ws m => exact handleMessage_waiting s ws m
  | disconnect ws =>
    rcases cleanup_waiting { s with openSocks := s.openSocks.filter (fun x => x != ws) } ws
      with h | ⟨t, h⟩
    · exact Or.inl h
    · exact Or.inr (Or.inr ⟨t, h⟩)

theorem tierInv_init : TierInv initState := by
  intro t; simp [initState, keyCount]

theorem tierInv_step (s : ServerState) (e : Event) (h : TierInv s) :
    TierInv (step s e).1 := by
  intro t
  rcases step_waiting s e with hw | ⟨t', w', hw⟩ | ⟨t', hw⟩
  · rw [hw]; exact h t
  · rw [hw]
    by_cases ht : t = t'
    · subst ht
      rw [keyCount_mSet_self]
      have := h t
      omega
    · rw [keyCount_mSet_ne _ _ _ _ ht]; exact h t
  · rw [hw]
    by_cases ht : t = t'
    · subst ht
      rw [keyCount_mDel_self]
      omega
    · rw [keyCount_mDel_ne _ _ _ ht]; exact h t

theorem tierInv_exec (es : List Event) (s : ServerState) (h : TierInv s) :
    TierInv (execState s es) := by
  induction es generalizing s with
  | nil => exact h
  | cons e es ih => exact ih _ (tierInv_step s e h)

theorem tierInv_reachable (s : ServerState) (hs : Reachable s) : TierInv s := by
  obtain ⟨es, rfl⟩ := hs
  exact tierInv_exec es initState tierInv_init

/-- After a join the requester's tier slot holds the requester alone
(waiting branch) or is empty (pairing branch). -/
theorem handleJoin_slot (s : ServerState) (ws : Nat) (c : Conn) (m : JSVal) :
    mGet (handleJoin s ws c m).1.waitingByTier (joinTier m) = some ws ∨
      mGet (handleJoin s ws c m).1.waitingByTier (joinTier m) = none := by
  rcases handleJoin_waiting s ws c m with h | h
  · left; rw [h, mGet_mSet_self]
  · right; rw [h, mGet_mDel_self]

/-! ### Dispatch lemmas (lines 103-160) -/

theorem dispatch_join (s : ServerState) (ws : Nat) (m : JSVal) (c : Conn)
    (hc : mGet s.clients ws = some c) (hm : getField m "type" = .str "join") :
    step s (.msg ws m) = handleJoin s ws c m := by
  simp [step, handleMessage, hc, hm, jsEqStr]

theorem dispatch_input (s : ServerState) (ws : Nat) (m : JSVal) (c : Conn)
    (hc : mGet s.clients ws = some c) (hm : getField m "type" = .str "input") :
    step s (.msg ws m) = handleInput s ws c m := by
  simp [step, handleMessage, hc, hm, jsEqStr]

theorem dispatch_state (s : ServerState) (ws : Nat) (m : JSVal) (c : Conn) (ty : String)
    (hc : mGet s.clients ws = some c) (hty : ty = "init" ∨ ty = "snapshot")
    (hm : getField m "type" = .str ty) :
    step s (.msg ws m) = handleState s ws c ty m := by
  rcases hty with h | h <;> subst h <;> simp [step, handleMessage, hc, hm, jsEqStr]

/-! ### Claim C9 -/

/-- C9: at every reachable state the tier queue records at most one
waiting connection per tier (`keyCount ≤ 1`), this is preserved by the
processing of any single join request, and after a join from a
registered connection the requester's tier slot either was consumed by
pairing (now empty) or holds exactly the requester — never two
entries. -/
theorem C9_single_waiter_per_tier (s : ServerState) (t : JSNum) (ws : Nat) (c : Conn)
    (m : JSVal) (hs : Reachable s) (hc : mGet s.clients ws = some c)
    (hm : getField m "type" = .str "join") :
    keyCount s.waitingByTier t ≤ 1 ∧
      keyCount (step s (.msg ws m)).1.waitingByTier t ≤ 1 ∧
      (mGet (step s (.msg ws m)).1.waitingByTier (joinTier m) = some ws ∨
        mGet (step s (.msg ws m)).1.waitingByTier (joinTier m) = none) := by
  refine ⟨tierInv_reachable s hs t, tierInv_step s _ (tierInv_reachable s hs) t, ?_⟩
  rw [dispatch_join s ws m c hc hm]
  exact handleJoin_slot s ws c m

/-- Witness for C9 at a concrete reachable state: socket 0 has joined
tier 1 and waits there; a second join on tier 1 is processed. -/
theorem C9_single_waiter_per_tier_witness :
    keyCount (execState initState [.connect 0, .msg 0 joinMsg1]).waitingByTier (.int 1) ≤ 1 ∧
      keyCount (step (execState initState [.connect 0, .msg 0 joinMsg1])
        (.msg 0 joinMsg1)).1.waitingByTier (.int 1) ≤ 1 ∧
      (mGet (step (execState initState [.connect 0, .msg 0 joinMsg1])
          (.msg 0 joinMsg1)).1.waitingByTier (joinTier joinMsg1) = some 0 ∨
        mGet (step (execState initState [.connect 0, .msg 0 joinMsg1])
          (.msg 0 joinMsg1)).1.waitingByTier (joinTier joinMsg1) = none) :=
  C9_single_waiter_per_tier (execState initState [.connect 0, .msg 0 joinMsg1]) (.int 1) 0
    ⟨0, some (.int 1), some "Tank", none⟩ joinMsg1
    ⟨[.connect 0, .msg 0 joinMsg1], rfl⟩ (by decide) rfl

/-! ### Claim C5 -/

/-- C5: first-come-first-served pairing.  If A joins tier `t` (both A
and B registered and open) while no one waits on `t`, A only receives
the informational searching notice, becomes the sole waiter for `t`,
and no room is created; when B then joins `t`, the slot for `t` is
emptied, exactly one room is created whose members are exactly A (host)
and B (client), A receives the host-start signal and B does not (B
receives its matched notice and a waiting-for-host notice instead). -/
theorem C5_pairing_first_come_first_served (s : ServerState) (A B : Nat) (cA cB : Conn)
    (m1 m2 : JSVal) (t : JSNum)
    (hA : mGet s.clients A = some cA) (hB : mGet s.clients B = some cB)
    (hBA : B ≠ A) (hAo : A ∈ s.openSocks) (hBo : B ∈ s.openSocks)
    (h1 : getField m1 "type" = .str "join") (h2 : getField m2 "type" = .str "join")
    (h1t : joinTier m1 = t) (h2t : joinTier m2 = t)
    (hw : mGet s.waitingByTier t = none) :
    (step s (.msg A m1)).2 = [(A, .info "Searching for opponent (same tier)...")] ∧
      mGet (step s (.msg A m1)).1.waitingByTier t = some A ∧
      (step s (.msg A m1)).1.rooms = s.rooms ∧
      mGet (step (step s (.msg A m1)).1 (.msg B m2)).1.waitingByTier t = none ∧
      (step (step s (.msg A m1)).1 (.msg B m2)).1.rooms =
        mSet s.rooms s.nextId ⟨A, B, t⟩ ∧
      (step (step s (.msg A m1)).1 (.msg B m2)).2 =
        [(A, .matched s.nextId cA.id cB.id),
         (B, .matched s.nextId cA.id cA.id),
         (A, .hostStart),
         (B, .info "Waiting for host to start…")] := by
  have hABs : ¬(A = B) := fun h => hBA h.symm
  have e1 : step s (.msg A m1) =
      ({ s with
          clients := mSet s.clients A { cA with tier := some t, tankName := some (joinName m1) },
          waitingByTier := mSet s.waitingByTier t A },
       [(A, .info "Searching for opponent (same tier)...")]) := by
    rw [dispatch_join s A m1 cA hA h1]
    simp [handleJoin, h1t, hw, enqueueWaiter, sendTo, hAo]
  have e1s : (step s (.msg A m1)).1 =
      { s with
          clients := mSet s.clients A { cA with tier := some t, tankName := some (joinName m1) },
          waitingByTier := mSet s.waitingByTier t A } := by rw [e1]
  have hB1 : mGet (mSet s.clients A
      { cA with tier := some t, tankName := some (joinName m1) }) B = some cB := by
    rw [mGet_mSet_ne _ _ _ _ hBA]; exact hB
  refine ⟨by rw [e1], ?_, by rw [e1s], ?_, ?_, ?_⟩
  · rw [e1s]; exact mGet_mSet_self _ _ _
  · rw [e1s, dispatch_join _ B m2 cB hB1 h2]
    simp [handleJoin, h2t, mGet_mSet_self, hABs, mGet_mSet_ne, createRoom, mGet_mDel_self]
  · rw [e1s, dispatch_join _ B m2 cB hB1 h2]
    simp [handleJoin, h2t, mGet_mSet_self, hABs, mGet_mSet_ne, createRoom]
  · rw [e1s, dispatch_join _ B m2 cB hB1 h2]
    simp [handleJoin, h2t, mGet_mSet_self, hABs, mGet_mSet_ne, createRoom,
      sendsTo, sendTo, hAo, hBo]

/-- Witness for C5: sockets 0 and 1 join tier 1 from the freshly
connected two-socket state. -/
theorem C5_pairing_first_come_first_served_witness :
    (step (execState initState [.connect 0, .connect 1]) (.msg 0 joinMsg1)).2 =
        [(0, .info "Searching for opponent (same tier)...")] ∧
      mGet (step (execState initState [.connect 0, .connect 1])
          (.msg 0 joinMsg1)).1.waitingByTier (.int 1) = some 0 ∧
      (step (execState initState [.connect 0, .connect 1]) (.msg 0 joinMsg1)).1.rooms =
        (execState initState [.connect 0, .connect 1]).rooms ∧
      mGet (step (step (execState initState [.connect 0, .connect 1]) (.msg 0 joinMsg1)).1
          (.msg 1 joinMsg1)).1.waitingByTier (.int 1) = none ∧
      (step (step (execState initState [.connect 0, .connect 1]) (.msg 0 joinMsg1)).1
          (.msg 1 joinMsg1)).1.rooms =
        mSet (execState initState [.connect 0, .connect 1]).rooms
          (execState initState [.connect 0, .connect 1]).nextId ⟨0, 1, .int 1⟩ ∧
      (step (step (execState initState [.connect 0, .connect 1]) (.msg 0 joinMsg1)).1
          (.msg 1 joinMsg1)).2 =
        [(0, .matched (execState initState [.connect 0, .connect 1]).nextId 0 1),
         (1, .matched (execState initState [.connect 0, .connect 1]).nextId 0 0),
         (0, .hostStart),
         (1, .info "Waiting for host to start…")] :=
  C5_pairing_first_come_first_served (execState initState [.connect 0, .connect 1]) 0 1
    ⟨0, none, none, none⟩ ⟨1, none, none, none⟩ joinMsg1 joinMsg1 (.int 1)
    (by decide) (by decide) (by decide) (by decide) (by decide) rfl rfl rfl rfl (by decide)

/-! ### Claim C1 -/

/-- C1: evaluation of the pairing code at the failing input.  Pairing
socket 0 (identity 0) with socket 1 (identity 1) on tier 1 emits to
the client member (socket 1) the notice `matched 2 0 0` — room 2,
hostId 0, peerId 0: the host identity twice (`server.js` line 130) —
although the client member's own identity is 1, as its registry
record shows. -/
theorem C1_matched_notice_eval :
    (step (execState initState [.connect 0, .connect 1, .msg 0 joinMsg1])
        (.msg 1 joinMsg1)).2 =
      [(0, .matched 2 0 1), (1, .matched 2 0 0), (0, .hostStart),
       (1, .info "Waiting for host to start…")] ∧
      mGet (execState initState pairEvents).clients 1 =
        some ⟨1, some (.int 1), some "Tank", some 2⟩ :=
  ⟨rfl, by decide⟩

/-! ### Claim C2 -/

/-- C2 counterexample: after sockets 0 and 1 are paired into room 2,
a further join from the matched socket 0 re-enters it into the tier
queue — its record still references room 2, the room still exists, and
yet socket 0 is again the recorded waiter for tier 1, contradicting
the claim that no inbound message can re-enter a matched connection
into the tier queue. -/
theorem C2_matched_rejoin_counterexample :
    mGet (execState initState (pairEvents ++ [.msg 0 joinMsg1])).waitingByTier (.int 1) =
        some 0 ∧
      mGet (execState initState (pairEvents ++ [.msg 0 joinMsg1])).clients 0 =
        some ⟨0, some (.int 1), some "Tank", some 2⟩ ∧
      mGet (execState initState (pairEvents ++ [.msg 0 joinMsg1])).rooms 2 =
        some ⟨0, 1, .int 1⟩ := by
  decide

/-- C2 amended: the join branch never checks the room reference, so a
matched connection that sends a further join is processed like any
join: if its tier slot is free it is re-entered into the tier queue as
the waiter (keeping its room reference), so Matched is not a state
whose only exit is disconnect. -/
theorem C2_matched_rejoin_amended (s : ServerState) (ws : Nat) (c : Conn) (rid : Nat)
    (m : JSVal) (hc : mGet s.clients ws = some c) (hrid : c.roomId = some rid)
    (hm : getField m "type" = .str "join")
    (hw : mGet s.waitingByTier (joinTier m) = none) :
    mGet (step s (.msg ws m)).1.waitingByTier (joinTier m) = some ws ∧
      mGet (step s (.msg ws m)).1.clients ws =
        some ⟨c.id, some (joinTier m), some (joinName m), some rid⟩ := by
  rw [dispatch_join s ws m c hc hm]
  constructor
  · simp [handleJoin, hw, enqueueWaiter, mGet_mSet_self]
  · simp [handleJoin, hw, enqueueWaiter, mGet_mSet_self, hrid]

/-- Witness for the amended C2 at the concrete paired state. -/
theorem C2_matched_rejoin_amended_witness :
    mGet (step pairedState (.msg 0 joinMsg1)).1.waitingByTier (joinTier joinMsg1) =
        some 0 ∧
      mGet (step pairedState (.msg 0 joinMsg1)).1.clients 0 =
        some ⟨0, some (joinTier joinMsg1), some (joinName joinMsg1), some 2⟩ :=
  C2_matched_rejoin_amended pairedState 0 ⟨0, some (.int 1), some "Tank", some 2⟩ 2
    joinMsg1 (by decide) rfl rfl (by decide)

/-! ### Claim C3 -/

/-- C3 counterexample: socket 0 joins tier 1 and then tier 2; the
final state records socket 0 as the waiting entry of both tiers,
contradicting the claim that a connection appears as the waiting entry
of at most one tier. -/
theorem C3_dual_tier_waiter_counterexample :
    mGet (execState initState [.connect 0, .msg 0 joinMsg1, .msg 0 joinMsg2]).waitingByTier
        (.int 1) = some 0 ∧
      mGet (execState initState [.connect 0, .msg 0 joinMsg1, .msg 0 joinMsg2]).waitingByTier
        (.int 2) = some 0 := by
  decide

/-- C3 amended: the registry record holds a single (at most one) room
reference, but the tier queue can record one connection under several
tiers: a connection recorded as the waiter of tier `t1` that joins a
different tier (slot free) becomes the waiter of the new tier while
remaining recorded as the waiter of `t1`. -/
theorem C3_stale_waiter_amended (s : ServerState) (ws : Nat) (c : Conn) (m : JSVal)
    (t1 : JSNum) (hc : mGet s.clients ws = some c)
    (hm : getField m "type" = .str "join") (hw1 : mGet s.waitingByTier t1 = some ws)
    (hne : t1 ≠ joinTier m) (hw2 : mGet s.waitingByTier (joinTier m) = none) :
    mGet (step s (.msg ws m)).1.waitingByTier t1 = some ws ∧
      mGet (step s (.msg ws m)).1.waitingByTier (joinTier m) = some ws := by
  rw [dispatch_join s ws m c hc hm]
  constructor
  · have h : (handleJoin s ws c m).1.waitingByTier =
        mSet s.waitingByTier (joinTier m) ws := by
      simp [handleJoin, hw2, enqueueWaiter]
    rw [h, mGet_mSet_ne _ _ _ _ hne]
    exact hw1
  · simp [handleJoin, hw2, enqueueWaiter, mGet_mSet_self]

/-- Witness for the amended C3: socket 0 waits on tier 1, then joins
tier 2, and is the recorded waiter of both tiers. -/
theorem C3_stale_waiter_amended_witness :
    mGet (step (execState initState [.connect 0, .msg 0 joinMsg1])
        (.msg 0 joinMsg2)).1.waitingByTier (.int 1) = some 0 ∧
      mGet (step (execState initState [.connect 0, .msg 0 joinMsg1])
        (.msg 0 joinMsg2)).1.waitingByTier (joinTier joinMsg2) = some 0 :=
  C3_stale_waiter_amended (execState initState [.connect 0, .msg 0 joinMsg1]) 0
    ⟨0, some (.int 1), some "Tank", none⟩ joinMsg2 (.int 1)
    (by decide) rfl (by decide) (by decide) (by decide)

/-! ### Claim C4 -/

/-- C4 counterexample: a join with the truthy non-numeric tier value
`"abc"` records tier NaN on the connection, not the default 1, so the
recorded tier is not a valid number for an arbitrary malformed tier. -/
theorem C4_nan_tier_counterexample :
    mGet (execState initState [.connect 0, .msg 0 joinMsgBad]).clients 0 =
        some ⟨0, some .nan, some "Tank", none⟩ ∧
      mGet (execState initState [.connect 0, .msg 0 joinMsgBad]).clients 0 ≠
        some ⟨0, some (.int 1), some "Tank", none⟩ := by
  decide

/-- The join branch always records `joinTier`/`joinName` on the
requester, in both the waiting and the pairing branch. -/
theorem handleJoin_record (s : ServerState) (ws : Nat) (c : Conn) (m : JSVal) :
    (mGet (handleJoin s ws c m).1.clients ws).map (fun c' => (c'.tier, c'.tankName)) =
      some (some (joinTier m), some (joinName m)) := by
  rcases hw : mGet s.waitingByTier (joinTier m) with _ | w
  · simp [handleJoin, hw, enqueueWaiter, mGet_mSet_self]
  · by_cases hww : w = ws
    · simp [handleJoin, hw, hww, enqueueWaiter, mGet_mSet_self]
    · rcases hcw : mGet (mSet s.clients ws
          { c with tier := some (joinTier m), tankName := some (joinName m) }) w with _ | host
      · simp [handleJoin, hw, hww, hcw, enqueueWaiter, mGet_mSet_self]
      · simp [handleJoin, hw, hww, hcw, createRoom, mGet_mSet_self]

/-- C4 amended: a join is never rejected and no error notice exists;
a falsy tier value (absent, null, 0, "", false, NaN) is coerced to the
default tier 1 and a falsy tankName to "Tank", and the join is then
processed normally with those values recorded on the connection.  (A
truthy non-numeric tier is instead recorded as NaN, per the
counterexample.) -/
theorem C4_default_coercion_amended (s : ServerState) (ws : Nat) (c : Conn) (m : JSVal)
    (hc : mGet s.clients ws = some c) (hm : getField m "type" = .str "join")
    (ht : truthy (getField m "tier") = false)
    (hn : truthy (getField m "tankName") = false) :
    joinTier m = .int 1 ∧ joinName m = "Tank" ∧
      (mGet (step s (.msg ws m)).1.clients ws).map (fun c' => (c'.tier, c'.tankName)) =
        some (some (.int 1), some "Tank") := by
  have h1 : joinTier m = .int 1 := by simp [joinTier, jsOr, ht, jsToNumber]
  have h2 : joinName m = "Tank" := by simp [joinName, jsOr, hn, jsToString]
  refine ⟨h1, h2, ?_⟩
  rw [dispatch_join s ws m c hc hm]
  rw [← h1, ← h2]
  exact handleJoin_record s ws c m

/-- Witness for the amended C4: a bare join (`{type:"join"}`) from a
fresh connection records tier 1 and name "Tank". -/
theorem C4_default_coercion_amended_witness :
    joinTier joinMsgBare = .int 1 ∧ joinName joinMsgBare = "Tank" ∧
      (mGet (step (execState initState [.connect 0]) (.msg 0 joinMsgBare)).1.clients 0).map
          (fun c' => (c'.tier, c'.tankName)) =
        some (some (.int 1), some "Tank") :=
  C4_default_coercion_amended (execState initState [.connect 0]) 0 ⟨0, none, none, none⟩
    joinMsgBare (by decide) rfl rfl rfl

/-! ### Claims C6, C7, C10 -/

/-- Objects are truthy. -/
theorem truthy_of_isObj (p : JSVal) (h : isObj p = true) : truthy p = true := by
  cases p <;> simp_all [isObj, truthy]

/-- C6: in a room with distinct members, an input message from the
client member is delivered with its payload (an object, per the wire
schema) to the host member only — the output batch is exactly that one
delivery and the state is unchanged — while an input message from the
host member is dropped: delivered to no one, state unchanged. -/
theorem C6_input_client_to_host_only (s : ServerState) (rid : Nat) (room : Room)
    (cC cH : Conn) (m mh p : JSVal)
    (hroom : mGet s.rooms rid = some room) (hne : room.hostWs ≠ room.clientWs)
    (hcC : mGet s.clients room.clientWs = some cC) (hcCr : cC.roomId = some rid)
    (hcH : mGet s.clients room.hostWs = some cH) (hcHr : cH.roomId = some rid)
    (hHo : room.hostWs ∈ s.openSocks)
    (hm : getField m "type" = .str "input") (hp : getField m "payload" = p)
    (hobj : isObj p = true) (hmh : getField mh "type" = .str "input") :
    step s (.msg room.clientWs m) = (s, [(room.hostWs, .inputMsg p)]) ∧
      step s (.msg room.hostWs mh) = (s, []) := by
  constructor
  · rw [dispatch_input s room.clientWs m cC hcC hm]
    simp [handleInput, hcCr, hroom, hne, relayPayload, hp, jsOr,
      truthy_of_isObj p hobj, sendTo, hHo]
  · rw [dispatch_input s room.hostWs mh cH hcH hmh]
    simp [handleInput, hcHr, hroom]

/-- Witness for C6 in the concrete paired state: client socket 1's
input reaches host socket 0 only; host socket 0's input is dropped. -/
theorem C6_input_client_to_host_only_witness :
    step pairedState (.msg 1 inputMsgEx) =
        (pairedState, [(0, .inputMsg (.obj [("fire", .bool true)]))]) ∧
      step pairedState (.msg 0 inputMsgEx) = (pairedState, []) :=
  C6_input_client_to_host_only pairedState 2 ⟨0, 1, .int 1⟩
    ⟨1, some (.int 1), some "Tank", some 2⟩ ⟨0, some (.int 1), some "Tank", some 2⟩
    inputMsgEx inputMsgEx (.obj [("fire", .bool true)])
    (by decide) (by decide) (by decide) rfl (by decide) rfl (by decide) rfl rfl rfl rfl

/-- C7: in a room with distinct members, an init or snapshot message
from the host member is delivered with its payload (an object, per the
wire schema) to the client member only, the outgoing type equal to the
incoming subtype, with the state unchanged; the same message from the
client member is dropped: delivered to no one, state unchanged. -/
theorem C7_state_host_to_client_only (s : ServerState) (rid : Nat) (room : Room)
    (cC cH : Conn) (m mc p : JSVal) (ty : String)
    (hroom : mGet s.rooms rid = some room) (hne : room.hostWs ≠ room.clientWs)
    (hcC : mGet s.clients room.clientWs = some cC) (hcCr : cC.roomId = some rid)
    (hcH : mGet s.clients room.hostWs = some cH) (hcHr : cH.roomId = some rid)
    (hCo : room.clientWs ∈ s.openSocks)
    (hty : ty = "init" ∨ ty = "snapshot")
    (hm : getField m "type" = .str ty) (hp : getField m "payload" = p)
    (hobj : isObj p = true) (hmc : getField mc "type" = .str ty) :
    step s (.msg room.hostWs m) = (s, [(room.clientWs, .stateMsg ty p)]) ∧
      step s (.msg room.clientWs mc) = (s, []) := by
  constructor
  · rw [dispatch_state s room.hostWs m cH ty hcH hty hm]
    simp [handleState, hcHr, hroom, relayPayload, hp, jsOr,
      truthy_of_isObj p hobj, sendTo, hCo]
  · rw [dispatch_state s room.clientWs mc cC ty hcC hty hmc]
    simp [handleState, hcCr, hroom, hne]

/-- Witness for C7 in the concrete paired state: host socket 0's init
reaches client socket 1 as an init; client socket 1's init is
dropped. -/
theorem C7_state_host_to_client_only_witness :
    step pairedState (.msg 0 initMsgEx) =
        (pairedState, [(1, .stateMsg "init" (.obj [("x", .num (.int 1))]))]) ∧
      step pairedState (.msg 1 initMsgEx) = (pairedState, []) :=
  C7_state_host_to_client_only pairedState 2 ⟨0, 1, .int 1⟩
    ⟨1, some (.int 1), some "Tank", some 2⟩ ⟨0, some (.int 1), some "Tank", some 2⟩
    initMsgEx initMsgEx (.obj [("x", .num (.int 1))]) "init"
    (by decide) (by decide) (by decide) rfl (by decide) rfl (by decide) (Or.inl rfl)
    rfl rfl rfl rfl

/-- C10: a relayed message's payload is forwarded unchanged only when
truthy; a falsy payload (absent, null, 0, "", false, NaN) is replaced
by an empty object in the delivered message, for the client-to-host
input direction and the host-to-client init/snapshot direction
alike. -/
theorem C10_falsy_payload_becomes_empty_obj (s : ServerState) (rid : Nat) (room : Room)
    (cC cH : Conn) (m mh p ph : JSVal) (ty : String)
    (hroom : mGet s.rooms rid = some room) (hne : room.hostWs ≠ room.clientWs)
    (hcC : mGet s.clients room.clientWs = some cC) (hcCr : cC.roomId = some rid)
    (hcH : mGet s.clients room.hostWs = some cH) (hcHr : cH.roomId = some rid)
    (hHo : room.hostWs ∈ s.openSocks) (hCo : room.clientWs ∈ s.openSocks)
    (hm : getField m "type" = .str "input") (hp : getField m "payload" = p)
    (hty : ty = "init" ∨ ty = "snapshot")
    (hmh : getField mh "type" = .str ty) (hph : getField mh "payload" = ph) :
    (step s (.msg room.clientWs m)).2 =
        [(room.hostWs, .inputMsg (if truthy p then p else .obj []))] ∧
      (step s (.msg room.hostWs mh)).2 =
        [(room.clientWs, .stateMsg ty (if truthy ph then ph else .obj []))] := by
  constructor
  · rw [dispatch_input s room.clientWs m cC hcC hm]
    simp [handleInput, hcCr, hroom, hne, relayPayload, hp, jsOr, sendTo, hHo]
  · rw [dispatch_state s room.hostWs mh cH ty hcH hty hmh]
    simp [handleState, hcHr, hroom, relayPayload, hph, jsOr, sendTo, hCo]

/-- Witness for C10 in the concrete paired state: a null input payload
from the client is delivered to the host as `{}`, and a snapshot with
payload 0 from the host is delivered to the client as `{}`. -/
theorem C10_falsy_payload_becomes_empty_obj_witness :
    (step pairedState (.msg 1 inputMsgNull)).2 =
        [(0, .inputMsg (if truthy .null then .null else .obj []))] ∧
      (step pairedState (.msg 0 snapMsgZero)).2 =
        [(1, .stateMsg "snapshot"
          (if truthy (.num (.int 0)) then .num (.int 0) else .obj []))] :=
  C10_falsy_payload_becomes_empty_obj pairedState 2 ⟨0, 1, .int 1⟩
    ⟨1, some (.int 1), some "Tank", some 2⟩ ⟨0, some (.int 1), some "Tank", some 2⟩
    inputMsgNull snapMsgZero .null (.num (.int 0)) "snapshot"
    (by decide) (by decide) (by decide) rfl (by decide) rfl (by decide) (by decide)
    rfl rfl (Or.inr rfl) rfl rfl

/-! ### Claim C8 -/

/-- C8: when a room member `ws` disconnects (its room still existing,
the other member `other` distinct, registered, referencing the same
room, and open), the cleanup emits exactly one "Opponent disconnected."
info notice, to `other`; `other`'s channel is closed; the room record
is removed; afterwards an input (or init/snapshot) message from any
registered connection still referencing the old room has no effect —
state unchanged, nothing delivered; running cleanup again for the
disconnected connection changes nothing and sends nothing; and running
cleanup for `other` (whose room is already gone) sends nothing and
leaves the room table unchanged. -/
theorem C8_disconnect_tears_room_down (s : ServerState) (ws other rid : Nat)
    (c cO : Conn) (room : Room) (ws2 : Nat) (c2 : Conn) (m2 : JSVal)
    (hc : mGet s.clients ws = some c) (hcr : c.roomId = some rid)
    (hroom : mGet s.rooms rid = some room)
    (_hmem : room.hostWs = ws ∨ room.clientWs = ws)
    (hother : (if room.hostWs = ws then room.clientWs else room.hostWs) = other)
    (hOne : other ≠ ws) (hOo : other ∈ s.openSocks)
    (hcO : mGet s.clients other = some cO) (hcOr : cO.roomId = some rid)
    (hw2 : ws2 ≠ ws) (hc2 : mGet s.clients ws2 = some c2) (hc2r : c2.roomId = some rid)
    (hm2 : getField m2 "type" = .str "input" ∨ getField m2 "type" = .str "init" ∨
      getField m2 "type" = .str "snapshot") :
    (step s (.disconnect ws)).2 = [(other, .info "Opponent disconnected.")] ∧
      other ∉ (step s (.disconnect ws)).1.openSocks ∧
      mGet (step s (.disconnect ws)).1.rooms rid = none ∧
      step (step s (.disconnect ws)).1 (.msg ws2 m2) = ((step s (.disconnect ws)).1, []) ∧
      cleanup (step s (.disconnect ws)).1 ws = ((step s (.disconnect ws)).1, []) ∧
      (cleanup (step s (.disconnect ws)).1 other).2 = [] ∧
      (cleanup (step s (.disconnect ws)).1 other).1.rooms =
        (step s (.disconnect ws)).1.rooms := by
  obtain ⟨w1, hW1⟩ := cleanupWait_eq
    { s with openSocks := s.openSocks.filter (fun x => x != ws) } ws c
  have hOo1 : other ∈ s.openSocks.filter (fun x => x != ws) := by
    simp only [List.mem_filter, bne_iff_ne, ne_eq, decide_not]
    exact ⟨hOo, by simp [hOne]⟩
  have e : step s (.disconnect ws) =
      ({ nextId := s.nextId, clients := mDel s.clients ws, waitingByTier := w1,
         rooms := mDel s.rooms rid,
         openSocks := (s.openSocks.filter (fun x => x != ws)).filter (fun x => x != other) },
       [(other, .info "Opponent disconnected.")]) := by
    show cleanup _ ws = _
    simp only [cleanup, hc]
    rw [hW1]
    simp [cleanupRoom, hcr, hroom, hother, sendTo, hOo1]
  rw [e]
  refine ⟨rfl, ?_, mGet_mDel_self _ _, ?_, ?_, ?_, ?_⟩
  · simp [List.mem_filter]
  · have hc2' : mGet (mDel s.clients ws) ws2 = some c2 := by
      rw [mGet_mDel_ne _ _ _ hw2]; exact hc2
    rcases hm2 with h | h | h
    · rw [dispatch_input _ ws2 m2 c2 hc2' h]
      simp [handleInput, hc2r, mGet_mDel_self]
    · rw [dispatch_state _ ws2 m2 c2 "init" hc2' (Or.inl rfl) h]
      simp [handleState, hc2r, mGet_mDel_self]
    · rw [dispatch_state _ ws2 m2 c2 "snapshot" hc2' (Or.inr rfl) h]
      simp [handleState, hc2r, mGet_mDel_self]
  · simp [cleanup, mGet_mDel_self]
  · obtain ⟨w2, hW2⟩ := cleanupWait_eq
      { nextId := s.nextId, clients := mDel s.clients ws, waitingByTier := w1,
        rooms := mDel s.rooms rid,
        openSocks := (s.openSocks.filter (fun x => x != ws)).filter (fun x => x != other) }
      other cO
    have hcO' : mGet (mDel s.clients ws) other = some cO := by
      rw [mGet_mDel_ne _ _ _ hOne]; exact hcO
    simp only [cleanup, hcO']
    rw [hW2]
    simp [cleanupRoom, hcOr, mGet_mDel_self]
  · obtain ⟨w2, hW2⟩ := cleanupWait_eq
      { nextId := s.nextId, clients := mDel s.clients ws, waitingByTier := w1,
        rooms := mDel s.rooms rid,
        openSocks := (s.openSocks.filter (fun x => x != ws)).filter (fun x => x != other) }
      other cO
    have hcO' : mGet (mDel s.clients ws) other = some cO := by
      rw [mGet_mDel_ne _ _ _ hOne]; exact hcO
    simp only [cleanup, hcO']
    rw [hW2]
    simp [cleanupRoom, hcOr, mGet_mDel_self]

/-- Witness for C8 at the concrete paired state: host socket 0
disconnects; client socket 1 gets the notice and its channel closes,
room 2 is gone, a later input from socket 1 does nothing, and repeated
cleanups do nothing. -/
theorem C8_disconnect_tears_room_down_witness :
    (step pairedState (.disconnect 0)).2 = [(1, .info "Opponent disconnected.")] ∧
      1 ∉ (step pairedState (.disconnect 0)).1.openSocks ∧
      mGet (step pairedState (.disconnect 0)).1.rooms 2 = none ∧
      step (step pairedState (.disconnect 0)).1 (.msg 1 inputMsgEx) =
        ((step pairedState (.disconnect 0)).1, []) ∧
      cleanup (step pairedState (.disconnect 0)).1 0 =
        ((step pairedState (.disconnect 0)).1, []) ∧
      (cleanup (step pairedState (.disconnect 0)).1 1).2 = [] ∧
      (cleanup (step pairedState (.disconnect 0)).1 1).1.rooms =
        (step pairedState (.disconnect 0)).1.rooms :=
  C8_disconnect_tears_room_down pairedState 0 1 2
    ⟨0, some (.int 1), some "Tank", some 2⟩ ⟨1, some (.int 1), some "Tank", some 2⟩
    ⟨0, 1, .int 1⟩ 1 ⟨1, some (.int 1), some "Tank", some 2⟩ inputMsgEx
    (by decide) rfl (by decide) (Or.inl (by decide)) (by decide) (by decide) (by decide)
    (by decide) rfl (by decide) (by decide) rfl (Or.inl rfl)

end TankServer
